import Mathlib

/-!
Shallow embedding of the crop-recommendation application (src/app.py) and
verification of its specification claims.

Slider readings and class probabilities are modelled as rationals; Python
format specifiers `:.0f` / `:.1f` are modelled by round-half-to-even
decimal formatting, which agrees with Python on every decimally exact value.
The external classifier is modelled as a pair of fallible functions, and the
result panel of the window as an explicit record of displayed fields.
-/

/-- Round-half-to-even to the nearest integer, as Python float formatting does
on decimally exact values. -/
def roundHalfEven (q : ℚ) : ℤ :=
  let f := q.floor
  let r := q - (f : ℚ)
  if r < 1/2 then f
  else if 1/2 < r then f + 1
  else if f % 2 = 0 then f else f + 1

/-- Decimal rendering of an integer. -/
def fmtInt (n : ℤ) : String :=
  if n < 0 then "-" ++ Nat.repr n.natAbs else Nat.repr n.natAbs

/-- Model of Python `f"{x:.0f}"`. -/
def fmt0 (q : ℚ) : String := fmtInt (roundHalfEven q)

/-- Model of Python `f"{x:.1f}"`. -/
def fmt1 (q : ℚ) : String :=
  let t := roundHalfEven (q * 10)
  (if t < 0 then "-" else "") ++
    Nat.repr (t.natAbs / 10) ++ "." ++ Nat.repr (t.natAbs % 10)

/-- The `reasons` list built by `generate_interpretation` (src/app.py lines
542-595): one band check per feature in the fixed order rainfall,
temperature, humidity, soil moisture, sunlight, pH, N, P, K, with the season
phrase appended unconditionally at the end. -/
def generate_reasons (rainfall temp humidity moisture sunlight ph n p k : ℚ)
    (season : String) : List String :=
  (if rainfall > 250 then ["high rainfall (" ++ fmt0 rainfall ++ "mm)"]
   else if rainfall > 150 then ["moderate rainfall (" ++ fmt0 rainfall ++ "mm)"]
   else if rainfall < 100 then ["low rainfall (" ++ fmt0 rainfall ++ "mm)"]
   else []) ++
  (if temp > 32 then ["warm temperature (" ++ fmt1 temp ++ "°C)"]
   else if temp < 22 then ["cool temperature (" ++ fmt1 temp ++ "°C)"]
   else if 24 ≤ temp ∧ temp ≤ 30 then ["optimal temperature (" ++ fmt1 temp ++ "°C)"]
   else []) ++
  (if humidity > 75 then ["high humidity (" ++ fmt0 humidity ++ "%)"]
   else if humidity < 50 then ["low humidity (" ++ fmt0 humidity ++ "%)"]
   else []) ++
  (if moisture > 60 then ["high soil moisture (" ++ fmt0 moisture ++ "%)"]
   else if moisture < 30 then ["low soil moisture (" ++ fmt0 moisture ++ "%)"]
   else []) ++
  (if sunlight > 9 then ["abundant sunlight (" ++ fmt1 sunlight ++ " hrs)"]
   else if sunlight < 5 then ["limited sunlight (" ++ fmt1 sunlight ++ " hrs)"]
   else []) ++
  (if 6 ≤ ph ∧ ph ≤ 7 then ["neutral pH (" ++ fmt1 ph ++ ")"]
   else if ph < 6 then ["acidic soil (pH " ++ fmt1 ph ++ ")"]
   else if ph > 7.5 then ["alkaline soil (pH " ++ fmt1 ph ++ ")"]
   else []) ++
  (if n > 80 then ["rich nitrogen"] else []) ++
  (if p > 50 then ["good phosphorus"] else []) ++
  (if k > 70 then ["high potassium"] else []) ++
  [season ++ " season"]

/-- `generate_interpretation` (src/app.py lines 539-607): build the reasons
list, then assemble the message from it. -/
def generate_interpretation (crop_name : String)
    (rainfall temp humidity moisture sunlight ph n p k : ℚ)
    (season : String) : String :=
  let reasons := generate_reasons rainfall temp humidity moisture sunlight ph n p k season
  if 3 ≤ reasons.length then
    crop_name ++ " is suitable due to " ++ String.intercalate ", " (reasons.take 3) ++ "."
  else if 0 < reasons.length then
    crop_name ++ " is recommended because of " ++ String.intercalate " and " reasons ++ "."
  else
    crop_name ++ " matches your current environmental conditions."

/-- The `CROP_EMOJIS` dictionary (src/app.py lines 484-523), in insertion
order. -/
def CROP_EMOJIS : List (String × String) := [
  ("Rice", "🌾"), ("Wheat", "🌾"), ("Maize", "🌽"), ("Corn", "🌽"),
  ("Soybean", "🌱"), ("Tomato", "🍅"), ("Chili", "🌶️"), ("Chilli", "🌶️"),
  ("Pepper", "🌶️"), ("Potato", "🥔"), ("Cotton", "🌱"), ("Sugarcane", "🎋"),
  ("Coffee", "☕"), ("Tea", "🍵"), ("Banana", "🍌"), ("Mango", "🥭"),
  ("Apple", "🍎"), ("Orange", "🍊"), ("Grapes", "🍇"), ("Watermelon", "🍉"),
  ("Coconut", "🥥"), ("Onion", "🧅"), ("Garlic", "🧄"), ("Carrot", "🥕"),
  ("Cabbage", "🥬"), ("Cauliflower", "🥦"), ("Pumpkin", "🎃"), ("Cucumber", "🥒"),
  ("Eggplant", "🍆"), ("Brinjal", "🍆"), ("Beans", "🫘"), ("Peas", "🫛"),
  ("Lentils", "🫘"), ("Chickpea", "🫘"), ("Sunflower", "🌻"), ("Mustard", "🌿"),
  ("Groundnut", "🥜"), ("Peanut", "🥜")]

/-- Does `needle` occur at the start of `hay`? -/
def startsWithList : List Char → List Char → Bool
  | [], _ => true
  | _ :: _, [] => false
  | c :: cs, d :: ds => c == d && startsWithList cs ds

/-- Does `needle` occur anywhere in `hay`? -/
def containsList (hay needle : List Char) : Bool :=
  match hay with
  | [] => needle.isEmpty
  | _ :: t => startsWithList needle hay || containsList t needle

/-- Model of Python `needle in hay` on strings. -/
def substrIn (needle hay : String) : Bool := containsList hay.data needle.data

/-- The per-entry match test of `get_crop_emoji`:
`crop.lower() in crop_name.lower() or crop_name.lower() in crop.lower()`. -/
def crop_matches (crop crop_name : String) : Bool :=
  substrIn crop.toLower crop_name.toLower || substrIn crop_name.toLower crop.toLower

/-- The fallback loop of `get_crop_emoji` over the dictionary in insertion
order. -/
def emoji_scan : List (String × String) → String → Option String
  | [], _ => none
  | (crop, e) :: rest, crop_name =>
    if crop_matches crop crop_name then some e else emoji_scan rest crop_name

/-- `get_crop_emoji` (src/app.py lines 525-537): exact key lookup, then the
case-insensitive bidirectional substring scan, then the default icon. -/
def get_crop_emoji (crop_name : String) : String :=
  match CROP_EMOJIS.find? (fun kv => kv.1 == crop_name) with
  | some kv => kv.2
  | none =>
    match emoji_scan CROP_EMOJIS crop_name with
    | some e => e
    | none => "🌱"

/-- The ascending comparison used to model `np.argsort(probabilities)`:
indices ordered by probability, ties by original index (the stable behaviour
numpy exhibits on these small arrays). This is a linear order on indices, so
every correct sort of it yields the same list. -/
def rankLE (p : List ℚ) (i j : Nat) : Prop :=
  p.getD i 0 < p.getD j 0 ∨ (p.getD i 0 = p.getD j 0 ∧ i ≤ j)

instance rankLE_dec (p : List ℚ) : DecidableRel (rankLE p) := fun i j =>
  inferInstanceAs (Decidable (p.getD i 0 < p.getD j 0 ∨ (p.getD i 0 = p.getD j 0 ∧ i ≤ j)))

instance rankLE_total (p : List ℚ) : IsTotal Nat (rankLE p) where
  total i j := by
    rcases lt_trichotomy (p.getD i 0) (p.getD j 0) with h | h | h
    · exact Or.inl (Or.inl h)
    · rcases Nat.le_total i j with hij | hij
      · exact Or.inl (Or.inr ⟨h, hij⟩)
      · exact Or.inr (Or.inr ⟨h.symm, hij⟩)
    · exact Or.inr (Or.inl h)

instance rankLE_trans (p : List ℚ) : IsTrans Nat (rankLE p) where
  trans a b c hab hbc := by
    rcases hab with h1 | ⟨e1, l1⟩ <;> rcases hbc with h2 | ⟨e2, l2⟩
    · exact Or.inl (h1.trans h2)
    · exact Or.inl (lt_of_lt_of_le h1 (le_of_eq e2))
    · exact Or.inl (lt_of_le_of_lt (le_of_eq e1) h2)
    · exact Or.inr ⟨e1.trans e2, l1.trans l2⟩

/-- Model of `np.argsort(probabilities)`: the indices `0, …, n-1` in
ascending `rankLE` order. -/
def argsort (p : List ℚ) : List Nat :=
  List.insertionSort (rankLE p) (List.range p.length)

/-- Model of `np.argsort(probabilities)[-3:][::-1]` (src/app.py line 648):
the last three ascending indices, reversed. -/
def top_3_indices (p : List ℚ) : List Nat := ((argsort p).reverse).take 3

/-- Model of the `top_3_crops` comprehension (src/app.py lines 649-651):
each selected index paired with its label and probability × 100. -/
def top_3_crops (crops : List String) (p : List ℚ) : List (String × ℚ) :=
  (top_3_indices p).map (fun idx => (crops.getD idx "", p.getD idx 0 * 100))

/-- The default `feature_columns` list (src/app.py lines 28-33). -/
def feature_columns : List String :=
  ["Rainfall_mm", "Temperature_C", "Humidity_pct",
   "SoilMoisture_pct", "Sunlight_hours", "Soil_pH",
   "SoilN_kg_ha", "SoilP_kg_ha", "SoilK_kg_ha",
   "Region_Encoded", "Season_Encoded"]

/-- Model of `LabelEncoder.transform` for a single value: the index of the
value in the class list of the encoder, or `none` (the raised error) when the
value is outside the closed vocabulary. -/
def transform (classes : List String) (x : String) : Option Nat :=
  match classes with
  | [] => none
  | c :: rest => if c == x then some 0 else (transform rest x).map (· + 1)

/-- The `values` list assembled by `auto_predict` (src/app.py lines 630-632),
with the two encoded categories cast to numbers as `np.array` does. -/
def build_features
    (rainfall temperature humidity soil_moisture sunlight soil_ph
      nitrogen phosphorus potassium : ℚ)
    (region_encoded season_encoded : Nat) : List ℚ :=
  [rainfall, temperature, humidity, soil_moisture, sunlight, soil_ph,
   nitrogen, phosphorus, potassium, (region_encoded : ℚ), (season_encoded : ℚ)]

/-- The opaque external classifier: `predict` yields a class index and
`predict_proba` a distribution over classes; either call may raise. -/
structure Classifier where
  predict : List ℚ → Except Unit Nat
  predict_proba : List ℚ → Except Unit (List ℚ)

/-- The result fields displayed in the right panel. -/
structure DisplayState where
  recommended_crop : String
  confidence_text : String
  interpretation_text : String
  alternatives : List (String × ℚ)
  status : String

/-- The inner `try` of `auto_predict` (src/app.py lines 643-654): on success
the confidence is the probability of the predicted class × 100 with the ranked
top-3 list; on failure confidence 0.0 with the top label alone. -/
def get_probabilities (crops : List String) (predicted_crop : String) (prediction : Nat)
    (proba : Except Unit (List ℚ)) : ℚ × List (String × ℚ) :=
  match proba with
  | Except.ok probabilities =>
      (probabilities.getD prediction 0 * 100, top_3_crops crops probabilities)
  | Except.error _ => (0, [(predicted_crop, 0)])

/-- `auto_predict` (src/app.py lines 609-706) as a state transformer on the
displayed result fields: encode the categories, assemble the feature vector,
call the classifier, and update the display; any failure lands in the
`except` block, which only changes the status indicator. -/
def auto_predict (regions seasons crops : List String) (clf : Classifier)
    (region season : String)
    (rainfall temperature humidity soil_moisture sunlight soil_ph
      nitrogen phosphorus potassium : ℚ)
    (prior : DisplayState) : DisplayState :=
  match transform regions region with
  | none => { prior with status := "🔴 Prediction error" }
  | some region_encoded =>
    match transform seasons season with
    | none => { prior with status := "🔴 Prediction error" }
    | some season_encoded =>
      let features := build_features rainfall temperature humidity soil_moisture sunlight
        soil_ph nitrogen phosphorus potassium region_encoded season_encoded
      match clf.predict features with
      | Except.error _ => { prior with status := "🔴 Prediction error" }
      | Except.ok prediction =>
        match crops[prediction]? with
        | none => { prior with status := "🔴 Prediction error" }
        | some predicted_crop =>
          let cp := get_probabilities crops predicted_crop prediction
            (clf.predict_proba features)
          { recommended_crop := get_crop_emoji predicted_crop ++ " " ++ predicted_crop.toUpper,
            confidence_text := fmt1 cp.1 ++ "%",
            interpretation_text := generate_interpretation predicted_crop rainfall temperature
              humidity soil_moisture sunlight soil_ph nitrogen phosphorus potassium season,
            alternatives := cp.2,
            status := "🟢 Prediction complete" }

/-- Fixture: a classifier whose underlying calls always raise. -/
def clfFail : Classifier where
  predict := fun _ => Except.error ()
  predict_proba := fun _ => Except.error ()

/-- Fixture: a classifier that predicts class 0 but does not support
probability output. -/
def clfNoProba : Classifier where
  predict := fun _ => Except.ok 0
  predict_proba := fun _ => Except.error ()

/-- Fixture: a previously displayed result. -/
def priorDemo : DisplayState where
  recommended_crop := "🌾 RICE"
  confidence_text := "88.0%"
  interpretation_text := "Rice is suitable due to high rainfall (300mm), warm temperature (35.0°C), high humidity (80%)."
  alternatives := [("Rice", 88)]
  status := "🟢 Prediction complete"

/-- C1: the explanation sentence follows the assembly rule over the collected
reasons list, and the season phrase is always the last element of that list. -/
theorem generate_interpretation_assembly (crop_name : String)
    (rainfall temp humidity moisture sunlight ph n p k : ℚ) (season : String) :
    (generate_reasons rainfall temp humidity moisture sunlight ph n p k season).getLast?
      = some (season ++ " season") ∧
    generate_interpretation crop_name rainfall temp humidity moisture sunlight ph n p k season
      = (if 3 ≤ (generate_reasons rainfall temp humidity moisture sunlight ph n p k season).length then
          crop_name ++ " is suitable due to " ++
            String.intercalate ", "
              ((generate_reasons rainfall temp humidity moisture sunlight ph n p k season).take 3) ++ "."
         else if 0 < (generate_reasons rainfall temp humidity moisture sunlight ph n p k season).length then
          crop_name ++ " is recommended because of " ++
            String.intercalate " and "
              (generate_reasons rainfall temp humidity moisture sunlight ph n p k season) ++ "."
         else
          crop_name ++ " matches your current environmental conditions.") := by
  constructor
  · simp only [generate_reasons]
    rw [List.getLast?_concat]
  · rfl

/-- C2: the documented scenario snapshot with predicted label "Rice" produces
exactly the sentence built from the first three reasons in the fixed feature
evaluation order. -/
theorem generate_interpretation_rice_scenario :
    generate_interpretation "Rice" 300 35 80 65 10 (6.5 : ℚ) 90 60 75 "Summer"
      = "Rice is suitable due to high rainfall (300mm), warm temperature (35.0°C), high humidity (80%)." := by
  with_unfolding_all decide

/-- Counterexample to C3: at rainfall exactly 250mm the code takes the
`rainfall > 150` branch, so the explanation does contain a rainfall phrase. -/
theorem rainfall_250_has_phrase :
    generate_interpretation "Wheat" 250 23 60 45 7 (7.2 : ℚ) 50 40 60 "Winter"
      = "Wheat is recommended because of moderate rainfall (250mm) and Winter season." := by
  with_unfolding_all decide

/-- C3 (amended): rainfall exactly 250mm yields the moderate-rainfall phrase,
as the first collected reason: the high band is strict (`> 250`), but 250
satisfies `> 150` and so falls into the moderate band. -/
theorem generate_reasons_rainfall_250 (temp humidity moisture sunlight ph n p k : ℚ)
    (season : String) :
    (generate_reasons 250 temp humidity moisture sunlight ph n p k season).head?
      = some "moderate rainfall (250mm)" := by
  have h1 : ¬ ((250 : ℚ) > 250) := by norm_num
  have h2 : (250 : ℚ) > 150 := by norm_num
  have hf : fmt0 250 = "250" := by with_unfolding_all decide
  simp only [generate_reasons, if_neg h1, if_pos h2, hf, List.append_assoc,
    List.singleton_append, List.cons_append, List.head?_cons]
  rfl

theorem generate_reasons_ne_nil (rainfall temp humidity moisture sunlight ph n p k : ℚ)
    (season : String) :
    generate_reasons rainfall temp humidity moisture sunlight ph n p k season ≠ [] := by
  simp [generate_reasons]

theorem string_get1_append (a b : String) (h : 2 ≤ a.data.length) :
    (a ++ b).data[1]? = a.data[1]? := by
  rw [String.data_append]
  exact List.getElem?_append_left (by omega)

theorem append_ne_of_data1_ne (c s t : String) (h : s.data[1]? ≠ t.data[1]?) :
    c ++ s ≠ c ++ t := by
  intro he
  apply h
  have hd := congrArg String.data he
  rw [String.data_append, String.data_append] at hd
  rw [List.append_cancel_left hd]

/-- C10: the zero-reasons fallback branch of `generate_interpretation` is
unreachable: the season phrase is appended unconditionally, so the reasons
list is never empty and the fallback sentence is never returned. -/
theorem interpretation_fallback_unreachable (crop_name : String)
    (rainfall temp humidity moisture sunlight ph n p k : ℚ) (season : String) :
    generate_reasons rainfall temp humidity moisture sunlight ph n p k season ≠ [] ∧
    generate_interpretation crop_name rainfall temp humidity moisture sunlight ph n p k season
      ≠ crop_name ++ " matches your current environmental conditions." := by
  refine ⟨generate_reasons_ne_nil rainfall temp humidity moisture sunlight ph n p k season, ?_⟩
  have h0 : 0 < (generate_reasons rainfall temp humidity moisture sunlight ph n p k season).length :=
    List.length_pos.mpr (generate_reasons_ne_nil rainfall temp humidity moisture sunlight ph n p k season)
  simp only [generate_interpretation]
  by_cases h3 : 3 ≤ (generate_reasons rainfall temp humidity moisture sunlight ph n p k season).length
  · rw [if_pos h3, String.append_assoc, String.append_assoc]
    apply append_ne_of_data1_ne
    rw [string_get1_append " is suitable due to " _ (by decide)]
    decide
  · rw [if_neg h3, if_pos h0, String.append_assoc, String.append_assoc]
    apply append_ne_of_data1_ne
    rw [string_get1_append " is recommended because of " _ (by decide)]
    decide

theorem emoji_scan_eq_find? (l : List (String × String)) (name : String) :
    emoji_scan l name = (l.find? (fun kv => crop_matches kv.1 name)).map Prod.snd := by
  induction l with
  | nil => rfl
  | cons hd tl ih =>
    cases hd with
    | mk crop e =>
      simp only [emoji_scan, List.find?_cons]
      by_cases h : crop_matches crop name
      · simp [h]
      · simp [h, ih]

/-- C9: for every crop-name string, the icon lookup returns the table entry on
an exact key match; otherwise the icon of the first entry, in table iteration
order, matching case-insensitively as a substring in either direction; and the
generic default icon if no entry matches. -/
theorem get_crop_emoji_spec (crop_name : String) :
    get_crop_emoji crop_name =
      (match CROP_EMOJIS.find? (fun kv => kv.1 == crop_name) with
       | some kv => kv.2
       | none =>
         match (CROP_EMOJIS.find? (fun kv => crop_matches kv.1 crop_name)).map Prod.snd with
         | some e => e
         | none => "🌱") := by
  simp only [get_crop_emoji, emoji_scan_eq_find?]

theorem argsort_sorted (p : List ℚ) : List.Pairwise (rankLE p) (argsort p) :=
  List.sorted_insertionSort (rankLE p) (List.range p.length)

theorem argsort_nodup (p : List ℚ) : (argsort p).Nodup :=
  (List.perm_insertionSort (rankLE p) (List.range p.length)).nodup_iff.mpr
    (List.nodup_range p.length)

theorem top_3_indices_pairwise (p : List ℚ) :
    List.Pairwise (fun i j => rankLE p j i) (top_3_indices p) := by
  have hs := argsort_sorted p
  have hrev : List.Pairwise (fun i j => rankLE p j i) (argsort p).reverse :=
    List.pairwise_reverse.mpr hs
  exact List.Pairwise.sublist (List.take_sublist 3 _) hrev

theorem top_3_indices_nodup (p : List ℚ) : (top_3_indices p).Nodup := by
  have h : ((argsort p).reverse).Nodup := List.nodup_reverse.mpr (argsort_nodup p)
  exact List.Nodup.sublist (List.take_sublist 3 _) h

/-- C4 (amended): the ranking returns at most 3 entries, sorted by probability
non-increasing, each probability multiplied by 100 and not re-normalized; but
equal probabilities appear in order of decreasing original index (the reverse
of the native index order of the distribution), because the ascending argsort is
reversed. -/
theorem auto_predict_top3_ranking (crops : List String) (p : List ℚ) :
    (top_3_crops crops p).length ≤ 3 ∧
    List.Pairwise (fun a b : String × ℚ => b.2 ≤ a.2) (top_3_crops crops p) ∧
    List.Pairwise (fun i j => p.getD i 0 = p.getD j 0 → j < i) (top_3_indices p) ∧
    top_3_crops crops p
      = (top_3_indices p).map (fun idx => (crops.getD idx "", p.getD idx 0 * 100)) := by
  refine ⟨?_, ?_, ?_, rfl⟩
  · simp only [top_3_crops, top_3_indices, List.length_map, List.length_take]
    omega
  · rw [top_3_crops, List.pairwise_map]
    refine (top_3_indices_pairwise p).imp ?_
    intro i j hji
    rcases hji with h | ⟨e, _⟩
    · exact mul_le_mul_of_nonneg_right (le_of_lt h) (by norm_num)
    · exact mul_le_mul_of_nonneg_right (le_of_eq e) (by norm_num)
  · have hcomb := (top_3_indices_pairwise p).and (top_3_indices_nodup p)
    refine hcomb.imp ?_
    intro i j hij heq
    rcases hij with ⟨hle, hne⟩
    rcases hle with h | ⟨_, hji⟩
    · exact absurd (heq ▸ h) (lt_irrefl _)
    · exact lt_of_le_of_ne hji (Ne.symm hne)

/-- Counterexample to C4: in the distribution `[1/2, 1/2, 0]` the labels at
indices 0 and 1 have equal probability, yet the ranking lists index 1 ("B")
before index 0 ("A") — the reverse of the original index order the claim
requires. -/
theorem top3_tie_counterexample :
    top_3_crops ["A", "B", "C"] [mkRat 1 2, mkRat 1 2, 0]
        = [("B", 50), ("A", 50), ("C", 0)] ∧
    ([mkRat 1 2, mkRat 1 2, (0 : ℚ)].getD 0 0 = [mkRat 1 2, mkRat 1 2, (0 : ℚ)].getD 1 0) := by
  with_unfolding_all decide

/-- C7: if the region or season is outside its closed vocabulary, or the
underlying classifier call raises, the prediction cycle ends in the error
status and every previously displayed result field is left unchanged. -/
theorem auto_predict_error_preserves_display (regions seasons crops : List String)
    (clf : Classifier) (region season : String)
    (rainfall temperature humidity soil_moisture sunlight soil_ph
      nitrogen phosphorus potassium : ℚ)
    (prior : DisplayState)
    (h : transform regions region = none ∨ transform seasons season = none ∨
         ∀ v, clf.predict v = Except.error ()) :
    auto_predict regions seasons crops clf region season rainfall temperature humidity
        soil_moisture sunlight soil_ph nitrogen phosphorus potassium prior
      = { prior with status := "🔴 Prediction error" } := by
  rcases h with hr | hs | hp
  · simp only [auto_predict, hr]
  · unfold auto_predict
    cases transform regions region with
    | none => rfl
    | some ri => rw [hs]
  · unfold auto_predict
    cases transform regions region with
    | none => rfl
    | some ri =>
      cases transform seasons season with
      | none => rfl
      | some si => simp only [hp]

theorem auto_predict_error_preserves_display_witness :
    transform ["North"] "East" = none ∧
    auto_predict ["North"] ["Summer"] ["Rice"] clfFail "East" "Summer"
        200 28 70 45 7 7 60 40 50 priorDemo
      = { priorDemo with status := "🔴 Prediction error" } :=
  ⟨by decide,
   auto_predict_error_preserves_display ["North"] ["Summer"] ["Rice"] clfFail "East" "Summer"
     200 28 70 45 7 7 60 40 50 priorDemo (Or.inl (by decide))⟩

/-- C5: when `predict_proba` raises, the displayed confidence falls back to
exactly 0.0 and the alternatives list is exactly the single pair
(top label, 0.0), while the top predicted label itself is still displayed. -/
theorem auto_predict_no_proba_fallback (regions seasons crops : List String)
    (clf : Classifier) (region season : String)
    (rainfall temperature humidity soil_moisture sunlight soil_ph
      nitrogen phosphorus potassium : ℚ)
    (prior : DisplayState) (ri si prediction : Nat) (predicted_crop : String)
    (hri : transform regions region = some ri)
    (hsi : transform seasons season = some si)
    (hpred : clf.predict (build_features rainfall temperature humidity soil_moisture sunlight
        soil_ph nitrogen phosphorus potassium ri si) = Except.ok prediction)
    (hcrop : crops[prediction]? = some predicted_crop)
    (hproba : clf.predict_proba (build_features rainfall temperature humidity soil_moisture
        sunlight soil_ph nitrogen phosphorus potassium ri si) = Except.error ()) :
    (auto_predict regions seasons crops clf region season rainfall temperature humidity
        soil_moisture sunlight soil_ph nitrogen phosphorus potassium prior).confidence_text
        = "0.0%" ∧
    (auto_predict regions seasons crops clf region season rainfall temperature humidity
        soil_moisture sunlight soil_ph nitrogen phosphorus potassium prior).alternatives
        = [(predicted_crop, 0)] ∧
    (auto_predict regions seasons crops clf region season rainfall temperature humidity
        soil_moisture sunlight soil_ph nitrogen phosphorus potassium prior).recommended_crop
        = get_crop_emoji predicted_crop ++ " " ++ predicted_crop.toUpper := by
  have h0 : fmt1 0 ++ "%" = "0.0%" := by with_unfolding_all decide
  unfold auto_predict
  rw [hri, hsi]
  simp only [hpred, hcrop, hproba, get_probabilities]
  simp [h0]

theorem auto_predict_no_proba_fallback_witness :
    transform ["North"] "North" = some 0 ∧
    ((auto_predict ["North"] ["Summer"] ["Rice"] clfNoProba "North" "Summer"
        200 28 70 45 7 7 60 40 50 priorDemo).confidence_text = "0.0%" ∧
     (auto_predict ["North"] ["Summer"] ["Rice"] clfNoProba "North" "Summer"
        200 28 70 45 7 7 60 40 50 priorDemo).alternatives = [("Rice", 0)] ∧
     (auto_predict ["North"] ["Summer"] ["Rice"] clfNoProba "North" "Summer"
        200 28 70 45 7 7 60 40 50 priorDemo).recommended_crop
        = get_crop_emoji "Rice" ++ " " ++ "Rice".toUpper) :=
  ⟨by decide,
   auto_predict_no_proba_fallback ["North"] ["Summer"] ["Rice"] clfNoProba "North" "Summer"
     200 28 70 45 7 7 60 40 50 priorDemo 0 0 0 "Rice" (by decide) (by decide) rfl rfl rfl⟩

/-- C6: with probability output available, the displayed confidence is the
probability the distribution assigns to the predicted class multiplied by 100,
and lies in [0, 100] whenever the entries of the distribution lie in [0, 1]. -/
theorem auto_predict_confidence_bounds (crops : List String) (predicted_crop : String)
    (prediction : Nat) (probabilities : List ℚ)
    (hmem : ∀ q ∈ probabilities, 0 ≤ q ∧ q ≤ 1)
    (hlt : prediction < probabilities.length) :
    (get_probabilities crops predicted_crop prediction (Except.ok probabilities)).1
        = probabilities.getD prediction 0 * 100 ∧
    0 ≤ (get_probabilities crops predicted_crop prediction (Except.ok probabilities)).1 ∧
    (get_probabilities crops predicted_crop prediction (Except.ok probabilities)).1 ≤ 100 := by
  have hsimp : (get_probabilities crops predicted_crop prediction (Except.ok probabilities)).1
      = probabilities.getD prediction 0 * 100 := rfl
  have hmemq : probabilities.getD prediction 0 ∈ probabilities := by
    rw [List.getD_eq_getElem?_getD, List.getElem?_eq_getElem hlt, Option.getD_some]
    exact List.getElem_mem hlt
  obtain ⟨h0, h1⟩ := hmem _ hmemq
  refine ⟨hsimp, ?_, ?_⟩
  · rw [hsimp]
    exact mul_nonneg h0 (by norm_num)
  · rw [hsimp]
    have h2 := mul_le_mul_of_nonneg_right h1 (show (0 : ℚ) ≤ 100 by norm_num)
    rwa [one_mul] at h2

theorem auto_predict_confidence_bounds_witness :
    (∀ q ∈ [mkRat 1 10, mkRat 9 10], 0 ≤ q ∧ q ≤ 1) ∧
    1 < [mkRat 1 10, mkRat 9 10].length ∧
    (0 ≤ (get_probabilities ["A", "B"] "B" 1 (Except.ok [mkRat 1 10, mkRat 9 10])).1 ∧
     (get_probabilities ["A", "B"] "B" 1 (Except.ok [mkRat 1 10, mkRat 9 10])).1 ≤ 100) :=
  ⟨by decide, by decide,
   (auto_predict_confidence_bounds ["A", "B"] "B" 1 [mkRat 1 10, mkRat 9 10]
     (by decide) (by decide)).2⟩

theorem transform_mem (l : List String) (x : String) (h : x ∈ l) :
    ∃ i, transform l x = some i ∧ l[i]? = some x := by
  induction l with
  | nil => cases h
  | cons a t ih =>
    by_cases hax : a == x
    · refine ⟨0, by simp [transform, hax], ?_⟩
      simpa using eq_of_beq hax
    · have hx : x ∈ t := by
        rcases List.mem_cons.mp h with h1 | h1
        · exact absurd (by simp [h1]) hax
        · exact h1
      obtain ⟨i, ht, hg⟩ := ih hx
      refine ⟨i + 1, ?_, ?_⟩
      · simp [transform, hax, ht]
      · simpa using hg

/-- C8: for region and season inside their closed vocabularies, the assembled
feature vector has exactly 11 entries — the nine readings followed by the two
encoded category indices, in the documented default column order — and
decoding the two indices through the class lists recovers the original
categories. -/
theorem auto_predict_feature_vector (regions seasons : List String) (region season : String)
    (rainfall temperature humidity soil_moisture sunlight soil_ph
      nitrogen phosphorus potassium : ℚ)
    (hr : region ∈ regions) (hs : season ∈ seasons) :
    ∃ ri si,
      transform regions region = some ri ∧ transform seasons season = some si ∧
      (build_features rainfall temperature humidity soil_moisture sunlight soil_ph nitrogen
          phosphorus potassium ri si).length = feature_columns.length ∧
      feature_columns.length = 11 ∧
      build_features rainfall temperature humidity soil_moisture sunlight soil_ph nitrogen
          phosphorus potassium ri si
        = [rainfall, temperature, humidity, soil_moisture, sunlight, soil_ph, nitrogen,
           phosphorus, potassium, (ri : ℚ), (si : ℚ)] ∧
      regions[ri]? = some region ∧ seasons[si]? = some season := by
  obtain ⟨ri, hri, hgi⟩ := transform_mem regions region hr
  obtain ⟨si, hsi, hgs⟩ := transform_mem seasons season hs
  exact ⟨ri, si, hri, hsi, rfl, rfl, rfl, hgi, hgs⟩

theorem auto_predict_feature_vector_witness :
    ("South" ∈ ["North", "South"]) ∧ ("Summer" ∈ ["Summer", "Winter"]) ∧
    (∃ ri si,
      transform ["North", "South"] "South" = some ri ∧
      transform ["Summer", "Winter"] "Summer" = some si ∧
      (build_features 200 28 70 45 7 7 60 40 50 ri si).length = feature_columns.length ∧
      feature_columns.length = 11 ∧
      build_features 200 28 70 45 7 7 60 40 50 ri si
        = [200, 28, 70, 45, 7, 7, 60, 40, 50, (ri : ℚ), (si : ℚ)] ∧
      ["North", "South"][ri]? = some "South" ∧ ["Summer", "Winter"][si]? = some "Summer") :=
  ⟨by decide, by decide,
   auto_predict_feature_vector ["North", "South"] ["Summer", "Winter"] "South" "Summer"
     200 28 70 45 7 7 60 40 50 (by decide) (by decide)⟩
